import Mathlib

/-!
# Verification of the osu! beatmap tracker core (MikuEye)

Shallow embedding of the core data-acquisition and state-reconciliation
logic of the tracker (`src/main.py`, with the duplicate module `src/core.py`
where it differs), together with theorems settling the frozen claims about
the specification.

Conventions:
* Python dicts holding fixed vocabularies become association lists
  (`List (String × String)`) queried with `List.lookup`, mirroring
  `dict.get(key, default)`.
* `time.time()` instants become rationals (`ℚ`).
* Fallible network calls become explicit oracle parameters
  (`fetch : String → FetchInfo`, token-exchange responses as `Option`).
-/

namespace MikuEye

/-! ## Status vocabulary (C1)

`src/main.py` lines 261-264 and `src/core.py` lines 89-92 each define a
`V2_STATUS_MAP` from the osu! api v2 status string to the internal numeric
status string.  The two copies differ: the copy in `core.py` has no
`'approved'` entry.  Both are embedded.  Lookup with default `'0'` mirrors
`V2_STATUS_MAP.get(status_str, '0')`. -/

/-- The `V2_STATUS_MAP` dict as defined in `src/main.py` (lines 261-264). -/
def V2_STATUS_MAP_main : List (String × String) :=
  [("graveyard", "-2"), ("wip", "-1"), ("pending", "0"),
   ("ranked", "1"), ("approved", "2"), ("qualified", "3"), ("loved", "4")]

/-- The `V2_STATUS_MAP` dict as defined in `src/core.py` (lines 89-92): the
`'approved'` entry is absent there. -/
def V2_STATUS_MAP_core : List (String × String) :=
  [("graveyard", "-2"), ("wip", "-1"), ("pending", "0"),
   ("ranked", "1"), ("qualified", "3"), ("loved", "4")]

/-- Lookup `V2_STATUS_MAP.get(s, '0')` — the status normalization used by
`get_beatmap_info` and the browse fetcher in `src/main.py`. -/
def statusOfMain (s : String) : String := (V2_STATUS_MAP_main.lookup s).getD "0"

/-- Lookup `V2_STATUS_MAP.get(s, '0')` with `src/core.py`'s copy of the map. -/
def statusOfCore (s : String) : String := (V2_STATUS_MAP_core.lookup s).getD "0"

/-- The fixed status table stated by the spec (§3 StatusCode closed enum). -/
def specStatusTable : List (String × String) :=
  [("graveyard", "-2"), ("wip", "-1"), ("pending", "0"),
   ("ranked", "1"), ("approved", "2"), ("qualified", "3"), ("loved", "4")]

/-! ## Query-string construction (C2)

`BrowseQualifiedWorkerThread.run` (`src/main.py` lines 186-203) builds the
search request parameters as a dict (insertion order preserved) and then
calls `urllib.parse.urlencode(parts)`.  `urlencode`'s default
`quote_via=quote_plus` percent-encodes every character outside
`[A-Za-z0-9_.~-]`, mapping a space to `+` and any other byte `b` to
`%XX` with upper-case hex digits; non-ASCII characters are encoded via
their UTF-8 bytes.  That encoder is embedded here byte-for-byte. -/

/-- UTF-8 encoding of one character (1-4 bytes), as `quote_plus` sees it. -/
def utf8Bytes (c : Char) : List Nat :=
  let n := c.toNat
  if n < 0x80 then [n]
  else if n < 0x800 then [0xC0 + n / 0x40, 0x80 + n % 0x40]
  else if n < 0x10000 then
    [0xE0 + n / 0x1000, 0x80 + n / 0x40 % 0x40, 0x80 + n % 0x40]
  else
    [0xF0 + n / 0x40000, 0x80 + n / 0x1000 % 0x40, 0x80 + n / 0x40 % 0x40,
     0x80 + n % 0x40]

/-- Upper-case hex digit, as used by Python's `quote`. -/
def hexDigit (n : Nat) : Char :=
  if n < 10 then Char.ofNat (48 + n) else Char.ofNat (55 + n)

/-- Is this byte in Python's `ALWAYS_SAFE` set (letters, digits, `_.-~`)? -/
def isUrlSafeByte (b : Nat) : Bool :=
  (48 ≤ b && b ≤ 57) || (65 ≤ b && b ≤ 90) || (97 ≤ b && b ≤ 122) ||
  b == 95 || b == 46 || b == 45 || b == 126

/-- Encoding of one byte under `quote_plus`: safe bytes unchanged, space
becomes `+`, everything else becomes `%XX`. -/
def quotePlusByte (b : Nat) : List Char :=
  if isUrlSafeByte b then [Char.ofNat b]
  else if b == 32 then ['+']
  else ['%', hexDigit (b / 16), hexDigit (b % 16)]

/-- Python's `urllib.parse.quote_plus` on a string. -/
def quotePlus (s : String) : String :=
  ⟨(s.data.flatMap utf8Bytes).flatMap quotePlusByte⟩

/-- Python's `urllib.parse.urlencode` on an ordered list of pairs (a dict
preserves insertion order). -/
def urlencode (parts : List (String × String)) : String :=
  String.intercalate "&" (parts.map fun p => quotePlus p.1 ++ "=" ++ quotePlus p.2)

/-- The `parts` dict built by `BrowseQualifiedWorkerThread.run`
(`src/main.py` lines 186-196), in insertion order.  `mode` is
`Option String` (`None` means all modes); the other optional parameters
are skipped when falsy (empty string / `None`). -/
def browseSearchParts (status : String) (mode : Option String)
    (cursor_string : Option String) (query : String) (sort : String) :
    List (String × String) :=
  [("nsfw", "true")]
  ++ (if status ≠ "" then [("s", status)] else [])
  ++ (match mode with | some m => [("m", m)] | none => [])
  ++ (match cursor_string with
      | some c => if c ≠ "" then [("cursor_string", c)] else []
      | none => [])
  ++ (if query ≠ "" then [("q", query)] else [])
  ++ (if sort ≠ "" then [("sort", sort)] else [])

/-- The query string the browse fetcher actually sends
(`query_string = urlencode(parts)`, `src/main.py` line 199). -/
def browseSearchQueryString (status : String) (mode : Option String)
    (cursor_string : Option String) (query : String) (sort : String) : String :=
  urlencode (browseSearchParts status mode cursor_string query sort)

/-! ## OAuth token cache (C4, C10)

`get_oauth_token` (`src/main.py` lines 548-573).  The module-level cache
`_oauth_token : str` / `_oauth_token_expiry : float` becomes an explicit
`TokenState`; `time.time()` becomes the parameter `now`; the POST to the
token endpoint becomes the oracle parameter `exchange` (`none` = the
request raised, i.e. a network error; otherwise the parsed JSON body's
optional `access_token` and `expires_in` fields). -/

/-- The module-level token cache (`_oauth_token`, `_oauth_token_expiry`). -/
structure TokenState where
  token : String
  expiry : ℚ
  deriving DecidableEq, Repr

/-- Parsed body of a token-exchange response. -/
structure ExchangeResp where
  access_token : Option String
  expires_in : Option ℚ
  deriving DecidableEq, Repr

/-- Outcome of one `get_oauth_token` call: the returned value, the cache
state afterwards, and whether an exchange request was issued. -/
structure TokenCallResult where
  result : Option String
  state : TokenState
  issuedRequest : Bool
  deriving DecidableEq, Repr

/-- Python `get_oauth_token(client_id, client_secret)` (`src/main.py` 548-573).
`if _oauth_token and time.time() < _oauth_token_expiry - 60: return it`;
then `if not client_id or not client_secret: return None`; otherwise the
exchange request is issued and the cache updated on success
(`expires_in` defaulting to 86400). -/
def get_oauth_token (st : TokenState) (now : ℚ)
    (client_id client_secret : String) (exchange : Option ExchangeResp) :
    TokenCallResult :=
  if st.token ≠ "" ∧ now < st.expiry - 60 then
    ⟨some st.token, st, false⟩
  else if client_id = "" ∨ client_secret = "" then
    ⟨none, st, false⟩
  else
    match exchange with
    | none => ⟨none, st, true⟩
    | some data =>
      match data.access_token with
      | none => ⟨none, st, true⟩
      | some tok =>
        ⟨some tok, ⟨tok, now + data.expires_in.getD 86400⟩, true⟩

/-! ## Monitor cycle data model (C5-C8)

Tracked items are the beatmap dicts of `src/main.py`; only the fields the
monitor cycle reads or writes are modelled.  `MonitorWorkerThread.run`
(lines 134-143) produces one result per tracked item (skipped when
unmonitored, otherwise the fetched info together with the snapshot item and
its status), and `_on_monitor_results` (lines 4338-4415) folds those
results into the live beatmap list, the history list and the auto-stop
decision. -/

/-- A difficulty entry as built by `get_beatmap_info`. -/
structure Diff where
  name : String
  stars : ℚ
  mode_int : Nat
  length : Nat
  spinners : Nat
  deriving DecidableEq, Repr

/-- A tracked beatmap (the fields of the config dict that the monitor
cycle touches). -/
structure Beatmap where
  id : String
  status_id : String
  monitored : Bool
  last_checked : Option ℚ
  diffs : List Diff
  diff_count : Nat
  deriving DecidableEq, Repr

/-- The successful payload of `get_beatmap_info` (the fields
`_on_monitor_results` reads). -/
structure InfoData where
  artist : String
  title : String
  creator : String
  status_id : String
  approved_date : Option String
  mode : String
  diffs : List Diff
  diff_count : Nat
  deriving DecidableEq, Repr

/-- Result of `get_beatmap_info`: `{'ok': False, 'error': msg}` for the
no-credentials / auth / 404 / 401 / network cases, or `{'ok': True, ...}`. -/
inductive FetchInfo where
  | err (msg : String)
  | ok (data : InfoData)
  deriving DecidableEq, Repr

/-- One entry of the `BEATMAP_STATUS` display table. -/
structure StatusInfo where
  name : String
  message : String
  color : String
  deriving DecidableEq, Repr

/-- The `BEATMAP_STATUS` dict of `src/main.py` (lines 297-305). -/
def BEATMAP_STATUS : List (String × StatusInfo) :=
  [("-2", ⟨"Graveyard", "Abandoned", "#636e72"⟩),
   ("-1", ⟨"WIP", "Work in Progress", "#e67e22"⟩),
   ("0", ⟨"Pending", "Pending Approval", "#f1c40f"⟩),
   ("1", ⟨"Ranked", "RANKED!", "#2ecc71"⟩),
   ("2", ⟨"Approved", "Approved", "#3498db"⟩),
   ("3", ⟨"Qualified", "Qualified", "#00d2d3"⟩),
   ("4", ⟨"Loved", "Loved", "#ff9ff3"⟩)]

/-- Lookup `BEATMAP_STATUS.get(str(s), BEATMAP_STATUS['0'])`. -/
def beatmapStatusInfo (s : String) : StatusInfo :=
  (BEATMAP_STATUS.lookup s).getD ⟨"Pending", "Pending Approval", "#f1c40f"⟩

/-- A history entry as built at `src/main.py` lines 4374-4383. -/
structure HistoryEntry where
  timestamp : ℚ
  beatmap_id : String
  title : String
  creator : String
  old_status : String
  new_status : String
  approved_date : Option String
  mode : String
  deriving DecidableEq, Repr

/-- History insertion: `history.insert(0, entry)` followed by
`history = history[:100]` (`src/main.py` lines 4384-4385). -/
def historyInsert (e : HistoryEntry) (h : List HistoryEntry) : List HistoryEntry :=
  (e :: h).take 100

/-- The history entry dict built for a detected transition: the stored
`old_status`/`new_status` are the display names from `BEATMAP_STATUS`. -/
def mkHistoryEntry (now : ℚ) (beatmap_id : String) (d : InfoData)
    (old_status new_status : String) : HistoryEntry :=
  { timestamp := now
    beatmap_id := beatmap_id
    title := d.artist ++ " - " ++ d.title
    creator := d.creator
    old_status := (beatmapStatusInfo old_status).name
    new_status := (beatmapStatusInfo new_status).name
    approved_date := d.approved_date
    mode := d.mode }

/-- One element of the list emitted by `MonitorWorkerThread.run`:
`{'index': i, 'ok': False, 'skipped': True}` for unmonitored items, else
`{'index': i, 'beatmap': beatmap, 'info': info, 'old_status':
beatmap['status_id']}`. -/
inductive MResult where
  | skipped
  | checked (index : Nat) (beatmap : Beatmap) (info : FetchInfo) (old_status : String)
  deriving DecidableEq, Repr

/-- Result list built by `MonitorWorkerThread.run` starting at index `k`
(the worker itself enumerates from 0; the generalisation feeds the fold
lemma). -/
def monitorWorkerRunFrom (fetch : String → FetchInfo) (k : Nat)
    (beatmaps : List Beatmap) : List MResult :=
  (List.enumFrom k beatmaps).map fun p =>
    if p.2.monitored = false then .skipped
    else .checked p.1 p.2 (fetch p.2.id) p.2.status_id

/-- Python `MonitorWorkerThread.run` (`src/main.py` lines 134-143): one
result per tracked item, in tracked-list order. -/
def monitorWorkerRun (fetch : String → FetchInfo) (beatmaps : List Beatmap) :
    List MResult :=
  beatmaps.enum.map fun p =>
    if p.2.monitored = false then .skipped
    else .checked p.1 p.2 (fetch p.2.id) p.2.status_id

/-- Mutable state threaded through the result loop of
`_on_monitor_results`: the live beatmap list, the history list and the
`has_changes` flag. -/
structure MState where
  beatmaps : List Beatmap
  history : List HistoryEntry
  has_changes : Bool
  deriving DecidableEq, Repr

/-- Field updates applied to `self.beatmaps[i]` on a successful fetch
(`src/main.py` lines 4360-4364): status, last-checked time, and the
difficulty list when the fetched one is non-empty. -/
def updateBeatmap (now : ℚ) (d : InfoData) (b : Beatmap) : Beatmap :=
  let b1 := { b with status_id := d.status_id, last_checked := some now }
  if d.diffs ≠ [] then { b1 with diffs := d.diffs, diff_count := d.diff_count }
  else b1

/-- The terminal status set checked at `src/main.py` line 4388
(`new_status in ['1', '2', '4']`). -/
def terminalStatuses : List String := ["1", "2", "4"]

/-- Processing of one worker result inside the loop of
`_on_monitor_results` (`src/main.py` lines 4348-4404): skipped and failed
fetches leave the state untouched (an out-of-range index raises and is
swallowed by the inner `except`); otherwise the item is updated, and on a
status change one history entry is inserted (capped at 100) and, when the
new status is terminal and auto-stop is on, the item is unmonitored. -/
def applyResult (autoStop : Bool) (now : ℚ) (s : MState) (r : MResult) : MState :=
  match r with
  | .skipped => s
  | .checked i bsnap info old_status =>
    match info with
    | .err _ => s
    | .ok d =>
      match s.beatmaps.get? i with
      | none => s
      | some b =>
        let new_status := d.status_id
        let b1 := updateBeatmap now d b
        if old_status ≠ new_status then
          let entry := mkHistoryEntry now bsnap.id d old_status new_status
          let b2 := if new_status ∈ terminalStatuses ∧ autoStop then
              { b1 with monitored := false } else b1
          { beatmaps := s.beatmaps.set i b2,
            history := historyInsert entry s.history,
            has_changes := true }
        else
          { s with beatmaps := s.beatmaps.set i b1 }

/-- Outcome of one monitor cycle: the updated tracked list and history,
whether any transition was detected, and whether the auto-stop
"all targets reached terminal status" signal fired. -/
structure CycleOutcome where
  beatmaps : List Beatmap
  history : List HistoryEntry
  has_changes : Bool
  stopSignal : Bool
  deriving DecidableEq, Repr

/-- Python `_on_monitor_results` (`src/main.py` lines 4338-4415): fold the
worker results, then — when auto-stop is enabled — fire the stop signal
iff every item is unmonitored and some change happened this cycle. -/
def onMonitorResults (autoStop : Bool) (now : ℚ) (beatmaps : List Beatmap)
    (history : List HistoryEntry) (results : List MResult) : CycleOutcome :=
  let s := results.foldl (applyResult autoStop now) ⟨beatmaps, history, false⟩
  let allDone := s.beatmaps.all fun b => !b.monitored
  ⟨s.beatmaps, s.history, s.has_changes, autoStop && allDone && s.has_changes⟩

/-- One full monitor cycle: `check_beatmaps` snapshots the tracked list,
`MonitorWorkerThread.run` fetches every monitored item, and
`_on_monitor_results` applies the results. -/
def runCycle (fetch : String → FetchInfo) (autoStop : Bool) (now : ℚ)
    (beatmaps : List Beatmap) (history : List HistoryEntry) : CycleOutcome :=
  onMonitorResults autoStop now beatmaps history (monitorWorkerRun fetch beatmaps)

/-- The effect of one cycle on a single tracked item (derived form of the
fold; `applyResults_from` proves the fold agrees with it). -/
def itemUpd (fetch : String → FetchInfo) (autoStop : Bool) (now : ℚ)
    (b : Beatmap) : Beatmap :=
  if b.monitored = false then b
  else
    match fetch b.id with
    | .err _ => b
    | .ok d =>
      let b1 := updateBeatmap now d b
      if b.status_id ≠ d.status_id then
        if d.status_id ∈ terminalStatuses ∧ autoStop then
          { b1 with monitored := false }
        else b1
      else b1

/-- The history entry (if any) a single tracked item contributes to the
cycle. -/
def itemEntry (fetch : String → FetchInfo) (now : ℚ) (b : Beatmap) :
    Option HistoryEntry :=
  if b.monitored = false then none
  else
    match fetch b.id with
    | .err _ => none
    | .ok d =>
      if b.status_id ≠ d.status_id then
        some (mkHistoryEntry now b.id d b.status_id d.status_id)
      else none

/-- History accumulation step of the derived per-item form. -/
def histStep (fetch : String → FetchInfo) (now : ℚ)
    (h : List HistoryEntry) (b : Beatmap) : List HistoryEntry :=
  match itemEntry fetch now b with
  | some e => historyInsert e h
  | none => h

/-! ## Browse aggregator (C3, C9)

`_browse_rebuild_from_cache` (`src/main.py` lines 3294-3322) interleaves
the per-status accumulated result lists round-robin with id
deduplication; `_browse_fetch_page` / `_browse_reset_and_fetch` (lines
3201-3249 and 3071-3123) implement the generation staleness guard. -/

/-- A browse search result dict (the fields the aggregator reads). -/
structure BrowseItem where
  id : String
  status_id : String
  mode : String
  modes : List String
  cursor_string : Option String
  deriving DecidableEq, Repr

/-- The body of the dedup check inside the interleaving loop
(`if bm['id'] not in seen_ids: seen_ids.add(...); merged.append(...)`);
the state is `(seen_ids, merged)`. -/
def dedupStep (st : List String × List BrowseItem) (bm : BrowseItem) :
    List String × List BrowseItem :=
  if bm.id ∈ st.1 then st else (bm.id :: st.1, st.2 ++ [bm])

/-- The multi-status branch of `_browse_rebuild_from_cache` (`src/main.py`
lines 3301-3311): `for i in range(max_len): for bucket in buckets:
if i < len(bucket): ...` with dedup by id.  `buckets` is the list of
per-category accumulated result lists, in the category enumeration
order. -/
def browseMergeMulti (buckets : List (List BrowseItem)) : List BrowseItem :=
  let maxLen := (buckets.map List.length).foldl max 0
  ((List.range maxLen).foldl (fun st i =>
      buckets.foldl (fun st bucket =>
        match bucket.get? i with
        | some bm => dedupStep st bm
        | none => st) st)
    ([], [])).2

/-- Modelled from the spec's wording of the merge order (§4.5): "round-robin
across categories in a fixed category order, by position within each
category's accumulated list ... skipping categories once exhausted" —
position 0 of each bucket, then position 1, and so on. -/
def roundRobinSpec (buckets : List (List BrowseItem)) : List BrowseItem :=
  ((List.range ((buckets.map List.length).foldl max 0)).map
    fun i => buckets.filterMap fun bucket => bucket.get? i).flatten

/-- Update of a string-keyed dict entry preserving insertion order. -/
def updateAssoc {α : Type} (l : List (String × α)) (k : String) (v : α) :
    List (String × α) :=
  if (l.lookup k).isSome then l.map fun p => if p.1 = k then (k, v) else p
  else l ++ [(k, v)]

/-- The per-request snapshot a browse page fetch carries: the generation
counter and status key recorded at issue time (`_gen_snap`,
`_status_snap`, `src/main.py` lines 3212-3213) plus the cursor it was
issued with. -/
structure WorkerTag where
  gen : Nat
  status : String
  cursor : Option String
  deriving DecidableEq, Repr

/-- The browse aggregator state (`_browse_*` attributes of the main
window that the fetch path touches). -/
structure BrowseState where
  fetch_gen : Nat
  api_status : String
  results_by_status : List (String × List BrowseItem)
  cursors : List (String × Option String)
  cursor : Option String
  loading : Bool
  workers : List String
  deriving DecidableEq, Repr

/-- State effect of `_browse_reset_and_fetch` (`src/main.py` lines
3071-3094): workers stopped, caches and cursors cleared, generation
incremented. -/
def browse_reset (st : BrowseState) : BrowseState :=
  { st with
    workers := [],
    results_by_status := [],
    cursor := none,
    cursors := [],
    loading := false,
    fetch_gen := st.fetch_gen + 1 }

/-- Python `_browse_fetch_page` (`src/main.py` lines 3201-3249): returns the
issued request's tag (or `none` when suppressed because the category is
already mid-fetch / a single-stream fetch is already loading) and the
updated state. -/
def browse_fetch_page (st : BrowseState) (cursor : Option String)
    (status_override : Option String) : Option WorkerTag × BrowseState :=
  match status_override with
  | some s =>
    if s ∈ st.workers then (none, st)
    else (some ⟨st.fetch_gen, s, cursor⟩, { st with workers := st.workers ++ [s] })
  | none =>
    if st.loading then (none, st)
    else (some ⟨st.fetch_gen, st.api_status, cursor⟩, { st with loading := true })

/-- Python `_browse_on_results` (`src/main.py` lines 3270-3283): record the
page's continuation cursor and extend the per-status accumulated list
with the page's not-yet-seen items. -/
def browse_on_results (st : BrowseState) (beatmaps : List BrowseItem)
    (status_key : String) : BrowseState :=
  let cursor_string := beatmaps.getLast?.bind BrowseItem.cursor_string
  let st1 := { st with cursors := updateAssoc st.cursors status_key cursor_string }
  let st2 := if st1.api_status ≠ "__multi__" then { st1 with cursor := cursor_string }
    else st1
  let existing := (st2.results_by_status.lookup status_key).getD []
  let seen := existing.map BrowseItem.id
  let new_bms := beatmaps.filter fun b => b.id ∉ seen
  { st2 with results_by_status :=
      updateAssoc st2.results_by_status status_key (existing ++ new_bms) }

/-- The `on_results` closure of `_browse_fetch_page` (`src/main.py` lines
3225-3232): a response whose recorded generation no longer matches the
aggregator's is dropped; otherwise the worker bookkeeping is undone and
the results applied. -/
def browse_on_worker_results (st : BrowseState) (tag : WorkerTag)
    (beatmaps : List BrowseItem) : BrowseState :=
  if st.fetch_gen ≠ tag.gen then st
  else
    let st1 := if tag.status ∈ st.workers
      then { st with workers := st.workers.erase tag.status }
      else { st with loading := false }
    browse_on_results st1 beatmaps tag.status

/-- The `on_error` closure of `_browse_fetch_page` (`src/main.py` lines
3234-3240) composed with `_browse_on_error`: stale errors are dropped,
fresh ones only clear the busy flags. -/
def browse_on_worker_error (st : BrowseState) (tag : WorkerTag) : BrowseState :=
  if st.fetch_gen ≠ tag.gen then st
  else
    let st1 := if tag.status ∈ st.workers
      then { st with workers := st.workers.erase tag.status }
      else { st with loading := false }
    { st1 with loading := false }

end MikuEye

/-! ## Theorems -/

namespace MikuEye

/-- Auxiliary: `get?` at the junction of an append. -/
theorem get?_append_cons {α : Type} (pre : List α) (b : α) (rest : List α) :
    (pre ++ b :: rest).get? pre.length = some b := by
  induction pre with
  | nil => rfl
  | cons a pre ih => simpa using ih

/-- Auxiliary: `getElem?` at the junction of an append. -/
theorem getElem?_append_cons {α : Type} (pre : List α) (b : α) (rest : List α) :
    (pre ++ b :: rest)[pre.length]? = some b := by
  rw [← List.get?_eq_getElem?]
  exact get?_append_cons pre b rest

/-- Auxiliary: `set` at the junction of an append. -/
theorem set_append_cons {α : Type} (pre : List α) (b x : α) (rest : List α) :
    (pre ++ b :: rest).set pre.length x = pre ++ x :: rest := by
  induction pre with
  | nil => rfl
  | cons a pre ih => simp [List.set, ih]

/-- Auxiliary: `updateBeatmap` keeps the item id. -/
theorem updateBeatmap_id (now : ℚ) (d : InfoData) (b : Beatmap) :
    (updateBeatmap now d b).id = b.id := by
  simp only [updateBeatmap]
  split <;> rfl

/-- Auxiliary: `updateBeatmap` keeps the monitored flag. -/
theorem updateBeatmap_monitored (now : ℚ) (d : InfoData) (b : Beatmap) :
    (updateBeatmap now d b).monitored = b.monitored := by
  simp only [updateBeatmap]
  split <;> rfl

/-- Auxiliary: `updateBeatmap` stores the fetched status. -/
theorem updateBeatmap_status (now : ℚ) (d : InfoData) (b : Beatmap) :
    (updateBeatmap now d b).status_id = d.status_id := by
  simp only [updateBeatmap]
  split <;> rfl

/-- Workhorse: the left fold of `_on_monitor_results` over the worker's
result list, started on a live list `pre ++ bs` with the results covering
the suffix `bs`, acts independently on each item (`itemUpd`), accumulates
history entries in tracked-list order (`histStep`), and ors `has_changes`
over the detected transitions. -/
theorem applyResults_from (fetch : String → FetchInfo) (a : Bool) (now : ℚ) :
    ∀ (bs pre : List Beatmap) (hist : List HistoryEntry) (hc : Bool),
      (monitorWorkerRunFrom fetch pre.length bs).foldl (applyResult a now)
          ⟨pre ++ bs, hist, hc⟩
        = ⟨pre ++ bs.map (itemUpd fetch a now),
           bs.foldl (histStep fetch now) hist,
           hc || bs.any fun b => (itemEntry fetch now b).isSome⟩ := by
  intro bs
  induction bs with
  | nil => intro pre hist hc; simp [monitorWorkerRunFrom]
  | cons b rest ih =>
    intro pre hist hc
    have hshift : ∀ (x : Beatmap) (hist' : List HistoryEntry) (hc' : Bool),
        (monitorWorkerRunFrom fetch (pre.length + 1) rest).foldl
            (applyResult a now) ⟨pre ++ x :: rest, hist', hc'⟩
          = ⟨pre ++ x :: rest.map (itemUpd fetch a now),
             rest.foldl (histStep fetch now) hist',
             hc' || rest.any fun b => (itemEntry fetch now b).isSome⟩ := by
      intro x hist' hc'
      have step := ih (pre ++ [x]) hist' hc'
      simpa using step
    rw [show monitorWorkerRunFrom fetch pre.length (b :: rest)
        = (if b.monitored = false then .skipped
           else .checked pre.length b (fetch b.id) b.status_id)
          :: monitorWorkerRunFrom fetch (pre.length + 1) rest from rfl]
    rw [List.foldl_cons]
    have hget : (pre ++ b :: rest)[pre.length]? = some b :=
      getElem?_append_cons pre b rest
    by_cases hm : b.monitored = false
    · rw [if_pos hm]
      rw [show applyResult a now ⟨pre ++ b :: rest, hist, hc⟩ .skipped
          = ⟨pre ++ b :: rest, hist, hc⟩ from rfl]
      rw [hshift b hist hc]
      simp [itemUpd, hm, histStep, itemEntry]
    · rw [if_neg hm]
      cases hf : fetch b.id with
      | err m =>
        rw [show applyResult a now ⟨pre ++ b :: rest, hist, hc⟩
              (.checked pre.length b (.err m) b.status_id)
            = ⟨pre ++ b :: rest, hist, hc⟩ from rfl]
        rw [hshift b hist hc]
        simp [itemUpd, hm, hf, histStep, itemEntry]
      | ok d =>
        by_cases hst : b.status_id = d.status_id
        · have happ : applyResult a now ⟨pre ++ b :: rest, hist, hc⟩
              (.checked pre.length b (.ok d) b.status_id)
              = ⟨pre ++ updateBeatmap now d b :: rest, hist, hc⟩ := by
            simp [applyResult, get?_append_cons, hget, hst, set_append_cons]
          rw [happ, hshift (updateBeatmap now d b) hist hc]
          simp [itemUpd, hm, hf, hst, histStep, itemEntry]
        · by_cases hterm : d.status_id ∈ terminalStatuses ∧ a = true
          · have happ : applyResult a now ⟨pre ++ b :: rest, hist, hc⟩
                (.checked pre.length b (.ok d) b.status_id)
                = ⟨pre ++ { updateBeatmap now d b with monitored := false } :: rest,
                   historyInsert
                     (mkHistoryEntry now b.id d b.status_id d.status_id) hist,
                   true⟩ := by
              simp [applyResult, get?_append_cons, hget, hst, hterm,
                set_append_cons]
            rw [happ, hshift { updateBeatmap now d b with monitored := false }
              (historyInsert (mkHistoryEntry now b.id d b.status_id d.status_id)
                hist) true]
            simp [itemUpd, hm, hf, hst, hterm, histStep, itemEntry]
          · have happ : applyResult a now ⟨pre ++ b :: rest, hist, hc⟩
                (.checked pre.length b (.ok d) b.status_id)
                = ⟨pre ++ updateBeatmap now d b :: rest,
                   historyInsert
                     (mkHistoryEntry now b.id d b.status_id d.status_id) hist,
                   true⟩ := by
              simp [applyResult, get?_append_cons, hget, hst, hterm,
                set_append_cons]
            rw [happ, hshift (updateBeatmap now d b)
              (historyInsert (mkHistoryEntry now b.id d b.status_id d.status_id)
                hist) true]
            simp [itemUpd, hm, hf, hst, hterm, histStep, itemEntry]

/-- Derived closed form of a full monitor cycle. -/
theorem runCycle_eq (fetch : String → FetchInfo) (a : Bool) (now : ℚ)
    (bs : List Beatmap) (hist : List HistoryEntry) :
    runCycle fetch a now bs hist
      = ⟨bs.map (itemUpd fetch a now),
         bs.foldl (histStep fetch now) hist,
         bs.any (fun b => (itemEntry fetch now b).isSome),
         a && ((bs.map (itemUpd fetch a now)).all fun b => !b.monitored)
           && bs.any fun b => (itemEntry fetch now b).isSome⟩ := by
  have hrun : monitorWorkerRun fetch bs = monitorWorkerRunFrom fetch 0 bs := rfl
  have h2 := applyResults_from fetch a now bs [] hist false
  simp only [List.nil_append, List.length_nil, Bool.false_or] at h2
  simp [runCycle, onMonitorResults, hrun, h2]

/-- Auxiliary: an item updated by a cycle never produces a history entry
in a second cycle run with the same fetch oracle. -/
theorem itemEntry_itemUpd (fetch : String → FetchInfo) (a : Bool)
    (now now2 : ℚ) (b : Beatmap) :
    itemEntry fetch now2 (itemUpd fetch a now b) = none := by
  by_cases hm : b.monitored = false
  · simp [itemUpd, hm, itemEntry]
  · cases hf : fetch b.id with
    | err m => simp [itemUpd, itemEntry, hm, hf]
    | ok d =>
      by_cases hst : b.status_id = d.status_id
      · simp [itemUpd, itemEntry, hm, hf, hst, updateBeatmap_monitored,
          updateBeatmap_id, updateBeatmap_status]
      · by_cases hterm : d.status_id ∈ terminalStatuses ∧ a = true
        · simp [itemUpd, itemEntry, hm, hf, hst, hterm]
        · simp [itemUpd, itemEntry, hm, hf, hst, hterm,
            updateBeatmap_monitored, updateBeatmap_id, updateBeatmap_status]

/-- Auxiliary: a cycle whose items all contribute no entry leaves history
untouched. -/
theorem histFold_of_none (fetch : String → FetchInfo) (now : ℚ) :
    ∀ (l : List Beatmap) (hist : List HistoryEntry),
      (∀ b ∈ l, itemEntry fetch now b = none) →
      l.foldl (histStep fetch now) hist = hist := by
  intro l
  induction l with
  | nil => intro hist _; rfl
  | cons b rest ih =>
    intro hist h
    have hb : histStep fetch now hist b = hist := by
      simp [histStep, h b (List.mem_cons_self b rest)]
    rw [List.foldl_cons, hb]
    exact ih hist fun x hx => h x (List.mem_cons_of_mem _ hx)

/-- Auxiliary: only monitored items can contribute a history entry. -/
theorem monitored_of_itemEntry_isSome (fetch : String → FetchInfo) (now : ℚ)
    (b : Beatmap) (h : (itemEntry fetch now b).isSome = true) :
    b.monitored = true := by
  by_cases hm : b.monitored = false
  · simp [itemEntry, hm] at h
  · simpa using hm

/-- Auxiliary: an item that contributes no entry keeps its monitored
flag through the cycle. -/
theorem itemUpd_monitored_of_entry_none (fetch : String → FetchInfo)
    (a : Bool) (now : ℚ) (b : Beatmap)
    (hm : b.monitored = true) (he : itemEntry fetch now b = none) :
    (itemUpd fetch a now b).monitored = true := by
  cases hf : fetch b.id with
  | err m => simpa [itemUpd, hm, hf] using hm
  | ok d =>
    by_cases hst : b.status_id = d.status_id
    · simp [itemUpd, hm, hf, hst, updateBeatmap_monitored]
    · exfalso
      simp [itemEntry, hm, hf, hst] at he

/-- C1: the status normalization in `src/main.py` matches the spec's fixed
table on every known status string and maps every unknown string to `'0'`
(Pending); the duplicate map in `src/core.py`, however, has no `'approved'`
entry, so there `'approved'` falls through to the Pending default `'0'`
instead of `'2'`. -/
theorem c1_status_map_bug :
    (∀ p ∈ specStatusTable, statusOfMain p.1 = p.2) ∧
    (∀ s : String, s ∉ V2_STATUS_MAP_main.map Prod.fst → statusOfMain s = "0") ∧
    statusOfCore "approved" = "0" ∧ statusOfCore "approved" ≠ "2" := by
  refine ⟨by decide, ?_, by decide, by decide⟩
  intro s hs
  simp only [V2_STATUS_MAP_main, List.map, List.mem_cons, List.not_mem_nil,
    or_false, not_or] at hs
  obtain ⟨h1, h2, h3, h4, h5, h6, h7⟩ := hs
  simp [statusOfMain, V2_STATUS_MAP_main, List.lookup,
    beq_eq_false_iff_ne.mpr h1, beq_eq_false_iff_ne.mpr h2,
    beq_eq_false_iff_ne.mpr h3, beq_eq_false_iff_ne.mpr h4,
    beq_eq_false_iff_ne.mpr h5, beq_eq_false_iff_ne.mpr h6,
    beq_eq_false_iff_ne.mpr h7]

/-- Witness for C1 at a concrete unknown string. -/
theorem c1_status_map_bug_witness :
    ("zzz" ∉ V2_STATUS_MAP_main.map Prod.fst) ∧ statusOfMain "zzz" = "0" :=
  ⟨by decide, c1_status_map_bug.2.1 "zzz" (by decide)⟩

/-- C2: the browse fetcher's query-string construction does NOT pass the
continuation cursor through verbatim.  Although the comment at
`src/main.py` line 198 says the query string is "built manually so [] in
cursor_string are not percent encoded", the code calls
`urllib.parse.urlencode`, whose default `quote_plus` percent-encodes `[`
as `%5B` and `]` as `%5D`.  At the concrete cursor `"a[b]"` the request
query string carries `cursor_string=a%5Bb%5D`, not the verbatim cursor. -/
theorem c2_cursor_percent_encoded :
    browseSearchQueryString "qualified" none (some "a[b]") "" ""
      = "nsfw=true&s=qualified&cursor_string=a%5Bb%5D" ∧
    browseSearchQueryString "qualified" none (some "a[b]") "" ""
      ≠ "nsfw=true&s=qualified&cursor_string=a[b]" ∧
    quotePlus "a[b]" = "a%5Bb%5D" := by
  refine ⟨by decide, ?_, by decide⟩
  decide

/-- C4: if the cache holds a non-empty token whose expiry is more than 60
seconds past `now`, `get_oauth_token` returns the cached token, issues no
exchange request, and leaves the cache unchanged; a second call still
inside the validity window minus 60s therefore also issues no request and
returns the same token, whatever credentials or network behaviour it is
given. -/
theorem c4_token_reuse (st : TokenState) (now now2 : ℚ)
    (cid csec cid2 csec2 : String) (ex ex2 : Option ExchangeResp)
    (h1 : st.token ≠ "") (h2 : now < st.expiry - 60)
    (h3 : now2 < st.expiry - 60) :
    get_oauth_token st now cid csec ex = ⟨some st.token, st, false⟩ ∧
    get_oauth_token (get_oauth_token st now cid csec ex).state now2
        cid2 csec2 ex2 = ⟨some st.token, st, false⟩ := by
  have hfirst : get_oauth_token st now cid csec ex = ⟨some st.token, st, false⟩ := by
    simp [get_oauth_token, h1, h2]
  refine ⟨hfirst, ?_⟩
  rw [hfirst]
  simp [get_oauth_token, h1, h3]

/-- Witness for C4 at a concrete cache state and call times. -/
theorem c4_token_reuse_witness :
    get_oauth_token ⟨"tok", 1000⟩ 0 "id" "sec" none
      = ⟨some "tok", ⟨"tok", 1000⟩, false⟩ ∧
    get_oauth_token (get_oauth_token ⟨"tok", 1000⟩ 0 "id" "sec" none).state 1
        "id" "sec" none = ⟨some "tok", ⟨"tok", 1000⟩, false⟩ :=
  c4_token_reuse ⟨"tok", 1000⟩ 0 1 "id" "sec" "id" "sec" none none
    (by decide) (by norm_num) (by norm_num)

/-- C10: credentials are examined only after the cache check.  With a
fresh cached token the call succeeds even when `client_id` and
`client_secret` are empty (and issues no request); conversely, whenever a
call returns `None`, the cache was not fresh (empty token or within 60s of
expiry), so the missing-credentials failure can only occur without a
sufficiently fresh cached token. -/
theorem c10_credentials_checked_lazily (st : TokenState) (now : ℚ)
    (ex : Option ExchangeResp)
    (h1 : st.token ≠ "") (h2 : now < st.expiry - 60) :
    (∀ cid csec : String,
      get_oauth_token st now cid csec ex = ⟨some st.token, st, false⟩) ∧
    (∀ (st' : TokenState) (now' : ℚ) (cid csec : String)
        (ex' : Option ExchangeResp),
      (get_oauth_token st' now' cid csec ex').result = none →
      ¬(st'.token ≠ "" ∧ now' < st'.expiry - 60)) := by
  constructor
  · intro cid csec
    simp [get_oauth_token, h1, h2]
  · intro st' now' cid csec ex' hnone hfresh
    simp [get_oauth_token, hfresh.1, hfresh.2] at hnone

/-- Witness for C10: empty credentials still return the fresh cached
token. -/
theorem c10_credentials_checked_lazily_witness :
    get_oauth_token ⟨"tok", 1000⟩ 0 "" "" none
      = ⟨some "tok", ⟨"tok", 1000⟩, false⟩ :=
  (c10_credentials_checked_lazily ⟨"tok", 1000⟩ 0 none
    (by decide) (by norm_num)).1 "" ""

/-- C5: for a processed item whose fetch succeeds, a status change appends
exactly one history entry (inserted at the front, capped) whose
`old_status`/`new_status` fields are the `BEATMAP_STATUS` display names,
and the stored status becomes the fetched status; an unchanged status
appends nothing; hence a second full cycle against the same remote state
adds zero entries. -/
theorem c5_monitor_transitions (a : Bool) (now : ℚ) :
    (∀ (s : MState) (i : Nat) (bsnap bcur : Beatmap) (d : InfoData),
        s.beatmaps.get? i = some bcur →
        bsnap.status_id ≠ d.status_id →
        (applyResult a now s (.checked i bsnap (.ok d) bsnap.status_id)).history
            = historyInsert
                (mkHistoryEntry now bsnap.id d bsnap.status_id d.status_id)
                s.history ∧
        (mkHistoryEntry now bsnap.id d bsnap.status_id d.status_id).old_status
            = (beatmapStatusInfo bsnap.status_id).name ∧
        (mkHistoryEntry now bsnap.id d bsnap.status_id d.status_id).new_status
            = (beatmapStatusInfo d.status_id).name ∧
        ∃ b2,
          (applyResult a now s
              (.checked i bsnap (.ok d) bsnap.status_id)).beatmaps
              = s.beatmaps.set i b2 ∧
          b2.status_id = d.status_id) ∧
    (∀ (s : MState) (i : Nat) (bsnap bcur : Beatmap) (d : InfoData),
        s.beatmaps.get? i = some bcur →
        bsnap.status_id = d.status_id →
        (applyResult a now s (.checked i bsnap (.ok d) bsnap.status_id)).history
          = s.history) ∧
    (∀ (fetch : String → FetchInfo) (bs : List Beatmap)
        (hist : List HistoryEntry) (now2 : ℚ),
        (runCycle fetch a now2 (runCycle fetch a now bs hist).beatmaps
            (runCycle fetch a now bs hist).history).history
          = (runCycle fetch a now bs hist).history) := by
  refine ⟨?_, ?_, ?_⟩
  · intro s i bsnap bcur d hget hne
    have hget' : s.beatmaps[i]? = some bcur := by
      rw [← List.get?_eq_getElem?]; exact hget
    refine ⟨?_, rfl, rfl, ?_⟩
    · simp [applyResult, hget', hne]
    · refine ⟨if d.status_id ∈ terminalStatuses ∧ a then
        { updateBeatmap now d bcur with monitored := false }
        else updateBeatmap now d bcur, ?_, ?_⟩
      · simp [applyResult, hget', hne]
      · by_cases hterm : d.status_id ∈ terminalStatuses ∧ a = true
        · simp [hterm, updateBeatmap_status]
        · simp [hterm, updateBeatmap_status]
  · intro s i bsnap bcur d hget heq
    have hget' : s.beatmaps[i]? = some bcur := by
      rw [← List.get?_eq_getElem?]; exact hget
    simp [applyResult, hget', heq]
  · intro fetch bs hist now2
    rw [runCycle_eq fetch a now bs hist]
    rw [runCycle_eq fetch a now2]
    refine histFold_of_none fetch now2 _ _ ?_
    intro b hb
    obtain ⟨b0, _, rfl⟩ := List.mem_map.mp hb
    exact itemEntry_itemUpd fetch a now now2 b0

/-- Witness for C5: a Qualified → Ranked transition on one concrete item
appends exactly the expected entry, with display names "Qualified" and
"Ranked". -/
theorem c5_monitor_transitions_witness :
    (beatmapStatusInfo "3").name = "Qualified" ∧
    (beatmapStatusInfo "1").name = "Ranked" ∧
    (applyResult true 0 ⟨[⟨"7", "3", true, none, [], 0⟩], [], false⟩
        (.checked 0 ⟨"7", "3", true, none, [], 0⟩
          (.ok ⟨"Artist", "Title", "Creator", "1", none, "0", [], 0⟩)
          "3")).history
      = historyInsert
          (mkHistoryEntry 0 "7"
            ⟨"Artist", "Title", "Creator", "1", none, "0", [], 0⟩ "3" "1")
          [] := by
  have h := (c5_monitor_transitions true 0).1
    ⟨[⟨"7", "3", true, none, [], 0⟩], [], false⟩ 0
    ⟨"7", "3", true, none, [], 0⟩ ⟨"7", "3", true, none, [], 0⟩
    ⟨"Artist", "Title", "Creator", "1", none, "0", [], 0⟩
    (by decide) (by decide)
  exact ⟨by decide, by decide, h.1⟩

/-- C6: a failed fetch (result not ok, whatever the error message: missing
credentials, auth failure, 404, 401, network error) leaves the whole cycle
state — stored status, last-checked time, difficulty list, history —
untouched for that item, and the fold simply continues with the remaining
results. -/
theorem c6_fetch_error_is_local (a : Bool) (now : ℚ) :
    (∀ (s : MState) (i : Nat) (bsnap : Beatmap) (msg old_status : String),
        applyResult a now s (.checked i bsnap (.err msg) old_status) = s) ∧
    (∀ (bs : List Beatmap) (hist : List HistoryEntry) (i : Nat)
        (bsnap : Beatmap) (msg old_status : String) (rest : List MResult),
        onMonitorResults a now bs hist
            (.checked i bsnap (.err msg) old_status :: rest)
          = onMonitorResults a now bs hist rest) := by
  exact ⟨fun s i bsnap msg old => rfl,
    fun bs hist i bsnap msg old rest => rfl⟩

/-- C7: each result either leaves history alone or front-inserts one entry
through `historyInsert`; `historyInsert` always puts the new entry first,
never lets the length exceed 100, and at length 100 evicts exactly the
oldest (last) entry. -/
theorem c7_history_cap :
    (∀ (a : Bool) (now : ℚ) (s : MState) (r : MResult),
        (applyResult a now s r).history = s.history ∨
        ∃ e, (applyResult a now s r).history = historyInsert e s.history) ∧
    (∀ (e : HistoryEntry) (h : List HistoryEntry),
        (historyInsert e h).head? = some e) ∧
    (∀ (e : HistoryEntry) (h : List HistoryEntry),
        h.length ≤ 100 → (historyInsert e h).length ≤ 100) ∧
    (∀ (e : HistoryEntry) (h : List HistoryEntry),
        h.length = 100 →
        historyInsert e h = e :: h.dropLast ∧
        (historyInsert e h).length = 100) := by
  refine ⟨?_, ?_, ?_, ?_⟩
  · intro a now s r
    cases r with
    | skipped => exact Or.inl rfl
    | checked i bsnap info old =>
      cases info with
      | err m => exact Or.inl rfl
      | ok d =>
        cases hg : s.beatmaps.get? i with
        | none =>
          have hg' : s.beatmaps[i]? = none := by
            rw [← List.get?_eq_getElem?]; exact hg
          exact Or.inl (by simp [applyResult, hg, hg'])
        | some b =>
          have hg' : s.beatmaps[i]? = some b := by
            rw [← List.get?_eq_getElem?]; exact hg
          by_cases hne : old ≠ d.status_id
          · exact Or.inr ⟨mkHistoryEntry now bsnap.id d old d.status_id,
              by simp [applyResult, hg, hg', hne]⟩
          · exact Or.inl (by simp [applyResult, hg, hg', hne])
  · intro e h
    rfl
  · intro e h hlen
    simp only [historyInsert, List.length_take, List.length_cons]
    omega
  · intro e h hlen
    constructor
    · simp only [historyInsert, List.take_succ_cons, List.cons.injEq, true_and]
      rw [List.dropLast_eq_take, hlen]
    · simp only [historyInsert, List.length_take, List.length_cons, hlen]
      decide

/-- Witness for C7 at a concrete 100-entry history. -/
theorem c7_history_cap_witness :
    ((List.replicate 100
        (⟨0, "7", "t", "c", "Qualified", "Ranked", none, "0"⟩ :
          HistoryEntry)).length = 100) ∧
    historyInsert ⟨1, "8", "t2", "c2", "Pending", "Ranked", none, "0"⟩
      (List.replicate 100
        (⟨0, "7", "t", "c", "Qualified", "Ranked", none, "0"⟩ : HistoryEntry))
      = ⟨1, "8", "t2", "c2", "Pending", "Ranked", none, "0"⟩ ::
        (List.replicate 100
          (⟨0, "7", "t", "c", "Qualified", "Ranked", none, "0"⟩ :
            HistoryEntry)).dropLast := by
  refine ⟨by simp, ?_⟩
  exact (c7_history_cap.2.2.2 _ _ (by simp)).1

/-- C8 counterexample: with auto-stop enabled, a monitored item already at
terminal status `'1'` (Ranked) whose fetch again returns `'1'` keeps
`monitored = true` after the cycle — the code only unmonitors inside the
status-change branch, so the claim's "an item whose new status is in the
terminal set has monitored set to false" is false as stated. -/
theorem c8_counterexample_unchanged_terminal :
    ("1" ∈ terminalStatuses) ∧
    (runCycle (fun _ => .ok ⟨"Artist", "Title", "Creator", "1", none, "0", [], 0⟩)
        true 0 [⟨"7", "1", true, none, [], 0⟩] []).beatmaps
      = [⟨"7", "1", true, some 0, [], 0⟩] ∧
    ((runCycle (fun _ => .ok ⟨"Artist", "Title", "Creator", "1", none, "0", [], 0⟩)
        true 0 [⟨"7", "1", true, none, [], 0⟩] []).beatmaps.all
        fun b => b.monitored) = true := by
  exact ⟨by decide, by decide, by decide⟩

/-- C8 (amended): with auto-stop enabled, an item whose status *changes*
to a terminal value is unmonitored; and the stop signal fires exactly when
after the cycle every item is unmonitored and at least one item was still
monitored before the cycle (so it cannot fire when all items were already
unmonitored and nothing happened). -/
theorem c8_auto_stop_amended (fetch : String → FetchInfo) (now : ℚ) :
    (∀ (b : Beatmap) (d : InfoData),
        b.monitored = true → fetch b.id = .ok d →
        b.status_id ≠ d.status_id → d.status_id ∈ terminalStatuses →
        (itemUpd fetch true now b).monitored = false) ∧
    (∀ (bs : List Beatmap) (hist : List HistoryEntry),
        (runCycle fetch true now bs hist).stopSignal = true ↔
          ((runCycle fetch true now bs hist).beatmaps.all
              fun b => !b.monitored) = true ∧
          (bs.any fun b => b.monitored) = true) := by
  constructor
  · intro b d hm hf hne hterm
    simp [itemUpd, hm, hf, hne, hterm]
  · intro bs hist
    rw [runCycle_eq]
    simp only [Bool.true_and, Bool.and_eq_true]
    constructor
    · rintro ⟨hall, hch⟩
      refine ⟨hall, ?_⟩
      obtain ⟨b, hb, hsome⟩ := List.any_eq_true.mp hch
      exact List.any_eq_true.mpr
        ⟨b, hb, monitored_of_itemEntry_isSome fetch now b hsome⟩
    · rintro ⟨hall, hmon⟩
      refine ⟨hall, ?_⟩
      obtain ⟨b, hb, hbmon⟩ := List.any_eq_true.mp hmon
      refine List.any_eq_true.mpr ⟨b, hb, ?_⟩
      cases he : itemEntry fetch now b with
      | some e => simp [he]
      | none =>
        exfalso
        have hkeep := itemUpd_monitored_of_entry_none fetch true now b hbmon he
        have hmem : itemUpd fetch true now b ∈ bs.map (itemUpd fetch true now) :=
          List.mem_map.mpr ⟨b, hb, rfl⟩
        have := List.all_eq_true.mp hall _ hmem
        rw [hkeep] at this
        simp at this

/-- Auxiliary: the inner bucket loop of the interleave is a `dedupStep`
fold over the items present at position `i`. -/
theorem innerFold_eq (i : Nat) :
    ∀ (buckets : List (List BrowseItem)) (st : List String × List BrowseItem),
      buckets.foldl (fun st bucket =>
          match bucket.get? i with
          | some bm => dedupStep st bm
          | none => st) st
        = (buckets.filterMap fun bucket => bucket.get? i).foldl dedupStep st := by
  intro buckets
  induction buckets with
  | nil => intro st; rfl
  | cons bucket rest ih =>
    intro st
    simp only [List.get?_eq_getElem?] at ih ⊢
    cases h : bucket[i]? with
    | none => simp [List.filterMap_cons, h, ih]
    | some bm => simp [List.filterMap_cons, h, ih]

/-- Auxiliary: a `dedupStep` fold over items with pairwise-distinct ids,
none already seen, appends them all in order. -/
theorem dedupFold_of_nodup :
    ∀ (l : List BrowseItem) (st : List String × List BrowseItem),
      (l.map BrowseItem.id).Nodup → (∀ bm ∈ l, bm.id ∉ st.1) →
      (l.foldl dedupStep st).2 = st.2 ++ l := by
  intro l
  induction l with
  | nil => intro st _ _; simp
  | cons a rest ih =>
    intro st hnd hseen
    have ha : a.id ∉ st.1 := hseen a (List.mem_cons_self a rest)
    have hstep : dedupStep st a = (a.id :: st.1, st.2 ++ [a]) := by
      simp [dedupStep, ha]
    rw [List.foldl_cons, hstep]
    rw [ih (a.id :: st.1, st.2 ++ [a])
      (by simpa using (List.nodup_cons.mp (by simpa using hnd)).2) ?_]
    · simp
    · intro bm hbm
      simp only [List.mem_cons, not_or]
      refine ⟨?_, hseen bm (List.mem_cons_of_mem _ hbm)⟩
      intro hEq
      have : a.id ∈ rest.map BrowseItem.id := by
        rw [← hEq]
        exact List.mem_map.mpr ⟨bm, hbm, rfl⟩
      exact (List.nodup_cons.mp (by simpa using hnd)).1 this

/-- C3: the multi-status rebuild merges the per-category accumulated
lists by round-robin position — position 0 of every category in the fixed
category enumeration order, then position 1, skipping exhausted
categories — whenever the accumulated items carry pairwise-distinct ids
(so the id dedup never fires); being a pure function of the accumulated
lists, the order is independent of network arrival order.  At the spec's
concrete instance `A=[1,2]`, `B=[3]`, `C=[4,5]` the merged order is
`[1,3,4,2,5]`. -/
theorem c3_round_robin_merge :
    (∀ buckets : List (List BrowseItem),
        ((roundRobinSpec buckets).map BrowseItem.id).Nodup →
        browseMergeMulti buckets = roundRobinSpec buckets) ∧
    browseMergeMulti
        [[⟨"1", "3", "0", ["0"], none⟩, ⟨"2", "3", "0", ["0"], none⟩],
         [⟨"3", "1", "0", ["0"], none⟩],
         [⟨"4", "4", "0", ["0"], none⟩, ⟨"5", "4", "0", ["0"], none⟩]]
      = [⟨"1", "3", "0", ["0"], none⟩, ⟨"3", "1", "0", ["0"], none⟩,
         ⟨"4", "4", "0", ["0"], none⟩, ⟨"2", "3", "0", ["0"], none⟩,
         ⟨"5", "4", "0", ["0"], none⟩] := by
  have mergeFold_eq : ∀ (buckets : List (List BrowseItem)) (n : Nat),
      ((List.range n).foldl (fun st i =>
          buckets.foldl (fun st bucket =>
            match bucket.get? i with
            | some bm => dedupStep st bm
            | none => st) st)
        ([], []))
      = ((List.range n).map
          fun i => buckets.filterMap fun bucket => bucket.get? i).flatten.foldl
          dedupStep ([], []) := by
    intro buckets n
    simp only [innerFold_eq]
    rw [List.foldl_flatten, List.foldl_map]
  constructor
  · intro buckets hnd
    rw [show browseMergeMulti buckets
        = ((roundRobinSpec buckets).foldl dedupStep ([], [])).2 from
      congrArg Prod.snd
        (mergeFold_eq buckets ((buckets.map List.length).foldl max 0))]
    rw [dedupFold_of_nodup _ ([], []) hnd (by simp)]
    rfl
  · decide

/-- Witness for C3: the concrete three-bucket instance has pairwise
distinct ids, and the merge equals the round-robin specification there. -/
theorem c3_round_robin_merge_witness :
    (((roundRobinSpec
        [[⟨"1", "3", "0", ["0"], none⟩, ⟨"2", "3", "0", ["0"], none⟩],
         [⟨"3", "1", "0", ["0"], none⟩],
         [⟨"4", "4", "0", ["0"], none⟩, ⟨"5", "4", "0", ["0"], none⟩]]).map
        BrowseItem.id).Nodup) ∧
    browseMergeMulti
        [[⟨"1", "3", "0", ["0"], none⟩, ⟨"2", "3", "0", ["0"], none⟩],
         [⟨"3", "1", "0", ["0"], none⟩],
         [⟨"4", "4", "0", ["0"], none⟩, ⟨"5", "4", "0", ["0"], none⟩]]
      = roundRobinSpec
        [[⟨"1", "3", "0", ["0"], none⟩, ⟨"2", "3", "0", ["0"], none⟩],
         [⟨"3", "1", "0", ["0"], none⟩],
         [⟨"4", "4", "0", ["0"], none⟩, ⟨"5", "4", "0", ["0"], none⟩]] :=
  ⟨by decide, c3_round_robin_merge.1 _ (by decide)⟩

/-- C9: a browse page request records the generation counter at issue
time in its tag; any response or error whose recorded generation differs
from the aggregator's current generation is discarded with the state —
accumulated results, cursors, and hence the rebuilt cards — completely
unchanged; and a search reset increments the generation, so a response
issued before the reset can never be applied afterwards. -/
theorem c9_generation_guard :
    (∀ (st : BrowseState) (cursor : Option String)
        (status_override : Option String) (tag : WorkerTag) (st' : BrowseState),
        browse_fetch_page st cursor status_override = (some tag, st') →
        tag.gen = st.fetch_gen) ∧
    (∀ (st : BrowseState) (tag : WorkerTag) (beatmaps : List BrowseItem),
        st.fetch_gen ≠ tag.gen →
        browse_on_worker_results st tag beatmaps = st ∧
        browse_on_worker_error st tag = st) ∧
    (∀ st : BrowseState, (browse_reset st).fetch_gen = st.fetch_gen + 1) := by
  refine ⟨?_, ?_, fun st => rfl⟩
  · intro st cursor status_override tag st' h
    cases status_override with
    | some s =>
      by_cases hw : s ∈ st.workers
      · rw [show browse_fetch_page st cursor (some s) = (none, st) from by
          simp [browse_fetch_page, hw]] at h
        simp at h
      · rw [show browse_fetch_page st cursor (some s)
            = (some ⟨st.fetch_gen, s, cursor⟩,
               { st with workers := st.workers ++ [s] }) from by
          simp [browse_fetch_page, hw]] at h
        rw [Prod.mk.injEq] at h
        have h1 := Option.some.inj h.1
        rw [← h1]
    | none =>
      by_cases hl : st.loading
      · rw [show browse_fetch_page st cursor none = (none, st) from by
          simp [browse_fetch_page, hl]] at h
        simp at h
      · rw [show browse_fetch_page st cursor none
            = (some ⟨st.fetch_gen, st.api_status, cursor⟩,
               { st with loading := true }) from by
          simp [browse_fetch_page, hl]] at h
        rw [Prod.mk.injEq] at h
        have h1 := Option.some.inj h.1
        rw [← h1]
  · intro st tag beatmaps hne
    constructor
    · simp [browse_on_worker_results, hne]
    · simp [browse_on_worker_error, hne]

/-- Witness for C9: a concrete stale response (tagged generation 0,
aggregator at generation 1, as after one reset) is discarded. -/
theorem c9_generation_guard_witness :
    ((1 : Nat) ≠ 0) ∧
    browse_on_worker_results ⟨1, "qualified", [], [], none, false, []⟩
        ⟨0, "qualified", none⟩ []
      = ⟨1, "qualified", [], [], none, false, []⟩ :=
  ⟨by decide,
    ((c9_generation_guard.2.1 ⟨1, "qualified", [], [], none, false, []⟩
      ⟨0, "qualified", none⟩ [] (by decide)).1)⟩

/-- Witness for C8 (amended): a concrete Qualified → Ranked change with
auto-stop on unmonitors the item, and the one-item cycle fires the stop
signal. -/
theorem c8_auto_stop_amended_witness :
    (itemUpd (fun _ => .ok ⟨"Artist", "Title", "Creator", "1", none, "0", [], 0⟩)
        true 0 ⟨"7", "3", true, none, [], 0⟩).monitored = false :=
  (c8_auto_stop_amended
      (fun _ => .ok ⟨"Artist", "Title", "Creator", "1", none, "0", [], 0⟩) 0).1
    ⟨"7", "3", true, none, [], 0⟩
    ⟨"Artist", "Title", "Creator", "1", none, "0", [], 0⟩
    rfl rfl (by decide) (by decide)

end MikuEye
